import Mathlib

/-
Verification of the real-time voice-streaming engine in
src/voice_live_service.py.

Shallow embedding notes:
- Python JSON values (the result of json.loads) are modelled by the
  inductive type JVal; Python None is JVal.null.
- dict.get(key) / dict.get(key, default) is modelled by pyGet; calling
  .get on a non-dict value raises AttributeError, modelled as an
  Except.error carrying the exception class name.
- base64.b64decode is implemented over the standard alphabet; the numpy
  frombuffer(dtype=int16) is bytesToInt16 (little-endian pairs; an odd
  byte count raises ValueError, modelled as Option.none).
- AudioPlayerAsync is PlayerState: the deque of int16 chunks, the
  playing flag, and the sounddevice OutputStream status.  The
  sounddevice stream API (external collaborator) is modelled from its
  documented behaviour: stop() and close() swallow PortAudio errors
  (ignore_errors=True is the default), so stopping or closing an
  already stopped/closed stream is a no-op and the underlying device
  is only actually released on the transition into the closed status.
-/

/-- JSON values after parsing, as produced by json.loads.  Objects model
Python dicts built by the JSON parser (no duplicate keys). -/
inductive JVal where
  | null
  | bool (b : Bool)
  | num (n : Int)
  | str (s : String)
  | arr (xs : List JVal)
  | obj (fields : List (String × JVal))

/-- Field lookup in a parsed JSON object. -/
def jLookup : List (String × JVal) → String → Option JVal
  | [], _ => none
  | (k, v) :: rest, key => if k = key then some v else jLookup rest key

/-- Python x.get(key, default): succeeds on dicts, raises AttributeError
on every other value. -/
def pyGet (v : JVal) (key : String) (dflt : JVal) : Except String JVal :=
  match v with
  | JVal.obj fields => Except.ok ((jLookup fields key).getD dflt)
  | _ => Except.error "AttributeError"

/-- Python equality on scalar JSON values (None, bool, int, str).  The
receive loop only compares item ids, which are strings or None; the Python
order-insensitive equality on dicts/lists is not needed by any claim and
collection values conservatively compare unequal here. -/
def pyEq : JVal → JVal → Bool
  | JVal.null, JVal.null => true
  | JVal.bool a, JVal.bool b => a == b
  | JVal.num a, JVal.num b => a == b
  | JVal.str a, JVal.str b => a == b
  | _, _ => false

/-- Python str() of a JSON scalar, as interposed by the f-string in the
error branch.  The repr of lists/dicts is not modelled (no claim
evaluates it); scalars are faithful. -/
def pyStr : JVal → String
  | JVal.null => "None"
  | JVal.bool true => "True"
  | JVal.bool false => "False"
  | JVal.num n => toString n
  | JVal.str s => s
  | JVal.arr _ => "[...]"
  | JVal.obj _ => "..."

/-- Value of one base64 alphabet character. -/
def b64CharVal (c : Char) : Option Nat :=
  if 65 ≤ c.toNat ∧ c.toNat ≤ 90 then some (c.toNat - 65)
  else if 97 ≤ c.toNat ∧ c.toNat ≤ 122 then some (c.toNat - 97 + 26)
  else if 48 ≤ c.toNat ∧ c.toNat ≤ 57 then some (c.toNat - 48 + 52)
  else if c.toNat = 43 then some 62
  else if c.toNat = 47 then some 63
  else none

/-- Decode groups of four base64 characters into bytes; padding may only
occur in the final group.  A leftover group of fewer than four
characters is a binascii.Error (none), as in Python. -/
def b64Groups : List Char → Option (List Nat)
  | [] => some []
  | c1 :: c2 :: c3 :: c4 :: rest =>
    match b64CharVal c1, b64CharVal c2 with
    | some v1, some v2 =>
      if c3 = '=' then
        if c4 = '=' ∧ rest = [] then some [v1 * 4 + v2 / 16] else none
      else
        match b64CharVal c3 with
        | some v3 =>
          if c4 = '=' then
            if rest = [] then some [v1 * 4 + v2 / 16, (v2 % 16) * 16 + v3 / 4] else none
          else
            match b64CharVal c4 with
            | some v4 =>
              (b64Groups rest).map
                (fun bs => (v1 * 4 + v2 / 16) :: ((v2 % 16) * 16 + v3 / 4) :: ((v3 % 4) * 64 + v4) :: bs)
            | none => none
        | none => none
    | _, _ => none
  | _ => none

/-- base64.b64decode (default validate=False): characters outside the
alphabet are discarded, then quanta of four are decoded. -/
def b64decode (s : String) : Option (List Nat) :=
  b64Groups (s.data.filter (fun c => (b64CharVal c).isSome || c = '='))

/-- Value of a little-endian int16 given its two bytes, as numpy reads
PCM16 buffers. -/
def int16OfBytes (lo hi : Nat) : Int :=
  let v := lo % 256 + 256 * (hi % 256)
  if v < 32768 then (v : Int) else (v : Int) - 65536

/-- numpy.frombuffer(data, dtype=int16): consecutive little-endian byte
pairs; an odd byte count raises ValueError (none). -/
def bytesToInt16 : List Nat → Option (List Int)
  | [] => some []
  | [_] => none
  | lo :: hi :: rest => (bytesToInt16 rest).map (fun xs => int16OfBytes lo hi :: xs)

/-- Status of the sounddevice OutputStream owned by AudioPlayerAsync. -/
inductive StreamStatus where
  | stopped
  | started
  | closed
deriving DecidableEq

/-- State of AudioPlayerAsync: the deque of decoded int16 chunks, the
playing flag, and the output-stream status. -/
structure PlayerState where
  queue : List (List Int)
  playing : Bool
  stream : StreamStatus

/-- AudioPlayerAsync.__init__: empty deque, not playing, stream built
but not started. -/
def initPlayer : PlayerState :=
  { queue := [], playing := false, stream := StreamStatus.stopped }

/-- sounddevice stream.start(): starts a stopped stream; starting an
already started stream is a no-op, and errors on a closed stream are
swallowed (the claims never start a closed stream). -/
def streamStart : StreamStatus → StreamStatus
  | StreamStatus.stopped => StreamStatus.started
  | s => s

/-- sounddevice stream.stop() with the default ignore_errors=True:
stops a started stream, no-op otherwise. -/
def streamStop : StreamStatus → StreamStatus
  | StreamStatus.started => StreamStatus.stopped
  | s => s

/-- sounddevice stream.close() with the default ignore_errors=True:
closing releases the device exactly when the stream was not already
closed; the second component counts actual device releases. -/
def streamCloseRel : StreamStatus → StreamStatus × Nat
  | StreamStatus.closed => (StreamStatus.closed, 0)
  | _ => (StreamStatus.closed, 1)

/-- AudioPlayerAsync.start: if not playing, set the flag and start the
stream. -/
def startPlayer (p : PlayerState) : PlayerState :=
  if p.playing then p
  else { p with playing := true, stream := streamStart p.stream }

/-- AudioPlayerAsync.add_data after byte decoding: append the chunk to
the deque and lazily start playback when the queue becomes non-empty. -/
def addData (p : PlayerState) (samples : List Int) : PlayerState :=
  let q := p.queue ++ [samples]
  if ¬p.playing ∧ q ≠ [] then startPlayer { p with queue := q }
  else { p with queue := q }

/-- AudioPlayerAsync.stop: clear the deque under the lock, drop the
playing flag, stop the stream. -/
def stopPlayer (p : PlayerState) : PlayerState :=
  { queue := [], playing := false, stream := streamStop p.stream }

/-- AudioPlayerAsync.terminate: clear the deque, stop and close the
stream (the playing flag is left as-is, exactly as in the source).  The
second component counts actual device releases performed. -/
def terminatePlayer (p : PlayerState) : PlayerState × Nat :=
  let s1 := streamStop p.stream
  let s2 := streamCloseRel s1
  ({ p with queue := [], stream := s2.1 }, s2.2)

/-- While-loop body of AudioPlayerAsync.callback: pop chunks from the
front of the deque until the requested frame count is gathered or the
deque empties; a chunk consumed in part is pushed back at the front.
Returns the gathered samples (pre-padding) and the remaining deque. -/
def callbackLoop : List (List Int) → Nat → List Int × List (List Int)
  | [], _ => ([], [])
  | item :: rest, needed =>
    if needed = 0 then ([], item :: rest)
    else if item.length ≤ needed then
      let r := callbackLoop rest (needed - item.length)
      (item ++ r.1, r.2)
    else (item.take needed, item.drop needed :: rest)

/-- AudioPlayerAsync.callback: gather up to the requested frames from
the deque and pad any shortfall with zero samples (silence); never
waits for data. -/
def playerCallback (p : PlayerState) (frames : Nat) : List Int × PlayerState :=
  let r := callbackLoop p.queue frames
  (r.1 ++ List.replicate (frames - r.1.length) 0, { p with queue := r.2 })

/-- Observable actions of VoiceLiveService._receive_audio_and_playback,
in the order the source performs them: an observer (callback_handler)
invocation with its event kind and payload dict, or a synchronous
AudioPlayerAsync.stop call. -/
inductive EngineAct where
  | obsCall (kind : String) (payload : JVal)
  | playerStop

/-- Mutable state threaded through the receive loop: the last-seen
audio item id (Python None initially) and the audio player of the service
(None until start_session constructs it). -/
structure RecvState where
  lastAudioItemId : JVal
  player : Option PlayerState

/-- Outcome of handling one parsed event: the successor state, the
actions performed (in order), and the uncaught Python exception, if
any, that escapes to the outer try of the loop. -/
structure RecvResult where
  st : RecvState
  acts : List EngineAct
  err : Option String

/-- Branch for event type session.created (lines 375-379): the id is
read from the session object for logging before the observer check, so
a missing or non-dict session raises AttributeError regardless of the
observer. -/
def handleSessionCreated (hasObs : Bool) (st : RecvState) (event : JVal) : RecvResult :=
  match pyGet event "session" JVal.null with
  | Except.error e => ⟨st, [], some e⟩
  | Except.ok session =>
    match pyGet session "id" JVal.null with
    | Except.error e => ⟨st, [], some e⟩
    | Except.ok sid =>
      ⟨st, if hasObs then [EngineAct.obsCall "session_created" (JVal.obj [("session_id", sid)])] else [],
        none⟩

/-- Branch for conversation.item.input_audio_transcription.completed
(lines 381-385). -/
def handleUserTranscript (hasObs : Bool) (st : RecvState) (event : JVal) : RecvResult :=
  match pyGet event "transcript" (JVal.str "") with
  | Except.error e => ⟨st, [], some e⟩
  | Except.ok t =>
    ⟨st, if hasObs then [EngineAct.obsCall "user_transcript" (JVal.obj [("text", t)])] else [], none⟩

/-- Branch for response.text.done (lines 387-391). -/
def handleAgentText (hasObs : Bool) (st : RecvState) (event : JVal) : RecvResult :=
  match pyGet event "text" (JVal.str "") with
  | Except.error e => ⟨st, [], some e⟩
  | Except.ok t =>
    ⟨st, if hasObs then [EngineAct.obsCall "agent_text" (JVal.obj [("text", t)])] else [], none⟩

/-- Branch for response.audio_transcript.done (lines 393-397). -/
def handleAgentAudioTranscript (hasObs : Bool) (st : RecvState) (event : JVal) : RecvResult :=
  match pyGet event "transcript" (JVal.str "") with
  | Except.error e => ⟨st, [], some e⟩
  | Except.ok t =>
    ⟨st, if hasObs then [EngineAct.obsCall "agent_audio_transcript" (JVal.obj [("text", t)])] else [],
      none⟩

/-- Inner step of the response.audio.delta branch: base64-decode the
delta, convert to int16 samples and append to the player when the
decoded bytes are non-empty and a player exists.  No observer call is
made on this branch.  Decoding a non-string raises TypeError, invalid
base64 raises binascii.Error, and an odd byte count raises ValueError
inside numpy, all escaping to the outer try. -/
def audioDeltaEnqueue (st : RecvState) (deltaVal : JVal) : RecvResult :=
  match deltaVal with
  | JVal.str s =>
    match b64decode s with
    | none => ⟨st, [], some "binascii.Error"⟩
    | some bytes =>
      match st.player, bytes with
      | some p, _ :: _ =>
        match bytesToInt16 bytes with
        | none => ⟨st, [], some "ValueError"⟩
        | some samples => ⟨{ st with player := some (addData p samples) }, [], none⟩
      | _, _ => ⟨st, [], none⟩
  | _ => ⟨st, [], some "TypeError"⟩

/-- Branch for response.audio.delta (lines 399-405): the last-seen item
id tracker is updated when the incoming item id differs, then the delta
is decoded and enqueued; nothing else touches the playback queue. -/
def handleAudioDelta (st : RecvState) (event : JVal) : RecvResult :=
  match pyGet event "item_id" JVal.null with
  | Except.error e => ⟨st, [], some e⟩
  | Except.ok itemId =>
    let st1 := if pyEq itemId st.lastAudioItemId then st
      else { st with lastAudioItemId := itemId }
    match pyGet event "delta" (JVal.str "") with
    | Except.error e => ⟨st1, [], some e⟩
    | Except.ok deltaVal => audioDeltaEnqueue st1 deltaVal

/-- Branch for input_audio_buffer.speech_started (lines 407-412):
AudioPlayerAsync.stop is invoked first (barge-in flush), and only then
is the observer notified. -/
def handleSpeechStarted (hasObs : Bool) (st : RecvState) : RecvResult :=
  match st.player with
  | some p =>
    ⟨{ st with player := some (stopPlayer p) },
      EngineAct.playerStop ::
        (if hasObs then [EngineAct.obsCall "speech_started" (JVal.obj [])] else []),
      none⟩
  | none =>
    ⟨st, if hasObs then [EngineAct.obsCall "speech_started" (JVal.obj [])] else [], none⟩

/-- Branch for the error event type (lines 414-422): fields default to
the literals used by the source, and the observer receives the composed
human-readable message. -/
def handleErrorEvent (hasObs : Bool) (st : RecvState) (event : JVal) : RecvResult :=
  match pyGet event "error" (JVal.obj []) with
  | Except.error e => ⟨st, [], some e⟩
  | Except.ok details =>
    match pyGet details "type" (JVal.str "Unknown") with
    | Except.error e => ⟨st, [], some e⟩
    | Except.ok ety =>
      match pyGet details "code" (JVal.str "Unknown") with
      | Except.error e => ⟨st, [], some e⟩
      | Except.ok eco =>
        match pyGet details "message" (JVal.str "No message provided") with
        | Except.error e => ⟨st, [], some e⟩
        | Except.ok eme =>
          ⟨st,
            if hasObs then
              [EngineAct.obsCall "error"
                (JVal.obj [("message",
                  JVal.str ("Error received: Type=" ++ pyStr ety ++ ", Code=" ++ pyStr eco
                    ++ ", Message=" ++ pyStr eme))])]
            else [], none⟩

/-- Dispatch on the string value of the type field (lines 375-422); an
unrecognised tag matches no branch and is a no-op. -/
def handleTyped (hasObs : Bool) (st : RecvState) (event : JVal) (t : String) : RecvResult :=
  if t = "session.created" then handleSessionCreated hasObs st event
  else if t = "conversation.item.input_audio_transcription.completed" then
    handleUserTranscript hasObs st event
  else if t = "response.text.done" then handleAgentText hasObs st event
  else if t = "response.audio_transcript.done" then handleAgentAudioTranscript hasObs st event
  else if t = "response.audio.delta" then handleAudioDelta st event
  else if t = "input_audio_buffer.speech_started" then handleSpeechStarted hasObs st
  else if t = "error" then handleErrorEvent hasObs st event
  else ⟨st, [], none⟩

/-- Body of the receive loop for one parsed event (lines 370-422):
event.get on a non-dict raises AttributeError, which is NOT caught by
the inner except (it only catches json.JSONDecodeError) and so escapes
to the outer try, terminating the loop.  A non-string type value
matches no branch. -/
def handleEvent (hasObs : Bool) (st : RecvState) (event : JVal) : RecvResult :=
  match pyGet event "type" JVal.null with
  | Except.error e => ⟨st, [], some e⟩
  | Except.ok (JVal.str t) => handleTyped hasObs st event t
  | Except.ok _ => ⟨st, [], none⟩

/-- One inbound websocket text message, abstracted at the json.loads
boundary: either text that fails to parse as JSON (raising
json.JSONDecodeError) or the parsed value. -/
inductive InMsg where
  | invalid (raw : String)
  | msg (v : JVal)

/-- Receive loop of _receive_audio_and_playback over a finite message
sequence (the loop otherwise polls until the stop event): a message
failing JSON decoding is logged and skipped by the inner except, a
handler exception escapes to the outer try and terminates the loop,
everything else is dispatched in order. -/
def receiveLoop (hasObs : Bool) (st : RecvState) : List InMsg → RecvState × List EngineAct × Option String
  | [] => (st, [], none)
  | InMsg.invalid _ :: rest => receiveLoop hasObs st rest
  | InMsg.msg v :: rest =>
    let r := handleEvent hasObs st v
    match r.err with
    | some e => (r.st, r.acts, some e)
    | none =>
      let out := receiveLoop hasObs r.st rest
      (out.1, r.acts ++ out.2.1, out.2.2)

/-- Observer invocations contained in an action trace, in order. -/
def obsCalls : List EngineAct → List (String × JVal)
  | [] => []
  | EngineAct.obsCall k p :: rest => (k, p) :: obsCalls rest
  | EngineAct.playerStop :: rest => obsCalls rest

/-- Wire shape of session.created (spec section 6). -/
def mkSessionCreated (sid : String) : JVal :=
  JVal.obj [("type", JVal.str "session.created"), ("session", JVal.obj [("id", JVal.str sid)])]

/-- Wire shape of the user transcription completion event. -/
def mkUserTranscript (t : String) : JVal :=
  JVal.obj [("type", JVal.str "conversation.item.input_audio_transcription.completed"),
    ("transcript", JVal.str t)]

/-- Wire shape of response.text.done. -/
def mkAgentText (t : String) : JVal :=
  JVal.obj [("type", JVal.str "response.text.done"), ("text", JVal.str t)]

/-- Wire shape of response.audio_transcript.done. -/
def mkAgentAudioTranscript (t : String) : JVal :=
  JVal.obj [("type", JVal.str "response.audio_transcript.done"), ("transcript", JVal.str t)]

/-- Wire shape of response.audio.delta. -/
def mkAudioDelta (itemId delta : String) : JVal :=
  JVal.obj [("type", JVal.str "response.audio.delta"), ("item_id", JVal.str itemId),
    ("delta", JVal.str delta)]

/-- Wire shape of input_audio_buffer.speech_started. -/
def mkSpeechStarted : JVal :=
  JVal.obj [("type", JVal.str "input_audio_buffer.speech_started")]

/-- Wire shape of the server error event. -/
def mkErrorEvent (ty co me : String) : JVal :=
  JVal.obj [("type", JVal.str "error"),
    ("error", JVal.obj [("type", JVal.str ty), ("code", JVal.str co), ("message", JVal.str me)])]

/-- Whether the websocket open acknowledgment has been observed by
discrete poll tick t (one tick = one 0.1 s sleep of
VoiceLiveConnection.connect); ackAt none models an unreachable
endpoint, where on_open never fires and run_forever returns. -/
def connectedBy (ackAt : Option Nat) (t : Nat) : Bool :=
  match ackAt with
  | some a => a ≤ t
  | none => false

/-- Polling loop of VoiceLiveConnection.connect (lines 79-82): while
not connected and fewer than 100 ticks (10 s / 0.1 s) have elapsed,
sleep one tick.  Returns the tick at which the loop exits, which is
the number of sleeps performed.  Fuel 101 provably suffices since the
tick increases every iteration. -/
def waitConnectAux (ackAt : Option Nat) : Nat → Nat → Nat
  | 0, t => t
  | fuel + 1, t =>
    if 100 ≤ t then t
    else if connectedBy ackAt t then t
    else waitConnectAux ackAt fuel (t + 1)

/-- Number of 0.1 s sleeps VoiceLiveConnection.connect performs before
its post-loop connectivity check. -/
def waitConnect (ackAt : Option Nat) : Nat :=
  waitConnectAux ackAt 101 0

/-- VoiceLiveConnection.connect (lines 48-85): spawn the websocket I/O
thread, poll the connected flag for at most 10 s, then raise
ConnectionError when still unconnected.  On success the result carries
the number of ticks waited. -/
def vlcConnect (ackAt : Option Nat) : Except String Nat :=
  let t := waitConnect ackAt
  if connectedBy ackAt t then Except.ok t
  else Except.error "Failed to establish WebSocket connection"

/-- Whether the daemon websocket I/O thread spawned by connect is still
running after connect returns: run_forever exits (and the thread with
it) when the socket to an unreachable endpoint cannot be opened, and
keeps running while the connection is open.  Modelled from the
behaviour of the external websocket-client library. -/
def wsThreadAlive (ackAt : Option Nat) : Bool :=
  ackAt.isSome

/-- State of a VoiceLiveConnection object. -/
structure VLConn where
  url : String
  connected : Bool
deriving DecidableEq

/-- VoiceLiveConnection.close: idempotent; drops the connected flag. -/
def closeConn (c : VLConn) : VLConn :=
  { c with connected := false }

/-- Python rstrip with a slash: drop trailing slash characters. -/
def rstripSlash (s : String) : String :=
  String.mk (List.reverse ((List.reverse s.data).dropWhile (fun c => c = '/')))

/-- Websocket URL built by AzureVoiceLive.connect (lines 133-135). -/
def buildWsUrl (endpoint apiVersion project agent tok : String) : String :=
  (rstripSlash endpoint).replace "https://" "wss://"
    ++ "/voice-live/realtime?api-version=" ++ apiVersion
    ++ "&agent-project-name=" ++ project
    ++ "&agent-id=" ++ agent
    ++ "&agent-access-token=" ++ tok

/-- State of the AzureVoiceLive client: the connection it holds, if
any. -/
structure AVLState where
  connection : Option VLConn
deriving DecidableEq

/-- Python truthiness test applied by the argument validations of
AzureVoiceLive.connect: None and the empty string are falsy. -/
def pyFalsy : Option String → Bool
  | none => true
  | some s => s = ""

/-- AzureVoiceLive.connect (lines 122-143): validate, then build the
URL, assign the connection object to the client BEFORE attempting the
socket connect (as in the source), and connect.  The middle component
counts socket connection attempts (calls to
VoiceLiveConnection.connect); a ValueError from validation performs no
attempt and leaves the client unchanged. -/
def avlConnect (st : AVLState) (endpoint apiVersion : String)
    (projectName agentId agentAccessToken : Option String) (ackAt : Option Nat) :
    AVLState × Nat × Except String VLConn :=
  if st.connection.isSome then (st, 0, Except.error "Already connected to the Voice Live API.")
  else if pyFalsy projectName then (st, 0, Except.error "Project name is required.")
  else if pyFalsy agentId then (st, 0, Except.error "Agent ID is required.")
  else if pyFalsy agentAccessToken then (st, 0, Except.error "Agent access token is required.")
  else
    let url := buildWsUrl endpoint apiVersion (projectName.getD "") (agentId.getD "")
      (agentAccessToken.getD "")
    match vlcConnect ackAt with
    | Except.error e => ({ connection := some { url := url, connected := false } }, 1, Except.error e)
    | Except.ok _ =>
      ({ connection := some { url := url, connected := true } }, 1,
        Except.ok { url := url, connected := true })

/-- Abstract session phases of the state machine the spec gives for
VoiceLiveService.  The concrete code has no state field; the phases are
read off code positions: Idle before start_session runs, Connecting
while it authenticates and opens the socket (lines 227-244), Active
once both worker threads are running (line 296), Stopping while
stop_session raises cancellation and joins (lines 309-314), Closed
after resources are released (lines 317-322) or after a start failure
lands in the except block (lines 300-304). -/
inductive SessPhase where
  | Idle
  | Connecting
  | Active
  | Stopping
  | Closed
deriving DecidableEq

/-- Environment of one start_session run: the outcome of external
collaborators.  authToken none models DefaultAzureCredential raising;
deviceOk false models AudioPlayerAsync construction failing (no output
device); ackAt is the websocket open-acknowledgment tick. -/
structure SessionEnv where
  endpoint : String
  apiVersion : String
  projectName : Option String
  agentId : Option String
  authToken : Option String
  ackAt : Option Nat
  deviceOk : Bool

/-- State of a VoiceLiveService object together with the module-level
stop_event. -/
structure ServiceState where
  client : Option AVLState
  connection : Option VLConn
  audioPlayer : Option PlayerState
  threads : Nat
  running : Bool
  stopEventSet : Bool

/-- VoiceLiveService.__init__ plus the module-level globals: nothing
constructed, no workers, stop event clear. -/
def initService : ServiceState :=
  { client := none, connection := none, audioPlayer := none, threads := 0,
    running := false, stopEventSet := false }

/-- Result of start_session: the successor service state, the returned
boolean, whether an error was reported (logger.error plus the error
observer callback in the except block), and the abstract phase trace
of the run. -/
structure StartOutcome where
  st : ServiceState
  ok : Bool
  errorReported : Bool
  trace : List SessPhase

/-- VoiceLiveService.start_session (lines 223-304): authenticate,
construct the client, connect (argument validation included), send the
session.update configuration fire-and-forget, construct the audio
player, then mark running and launch the two worker threads.  Any
exception lands in the except block: the error is reported and False
is returned, so the session never becomes Active. -/
def startSession (env : SessionEnv) (st : ServiceState) : StartOutcome :=
  match env.authToken with
  | none =>
    { st := st, ok := false, errorReported := true,
      trace := [SessPhase.Idle, SessPhase.Connecting, SessPhase.Closed] }
  | some tok =>
    let st1 := { st with client := some { connection := none } }
    let r := avlConnect { connection := none } env.endpoint env.apiVersion env.projectName
      env.agentId (some tok) env.ackAt
    let st2 := { st1 with client := some r.1 }
    match r.2.2 with
    | Except.error _ =>
      { st := st2, ok := false, errorReported := true,
        trace := [SessPhase.Idle, SessPhase.Connecting, SessPhase.Closed] }
    | Except.ok conn =>
      let st3 := { st2 with connection := some conn }
      if env.deviceOk then
        let st4 := { st3 with audioPlayer := some initPlayer }
        let st5 := { st4 with running := true, stopEventSet := false, threads := 2 }
        { st := st5, ok := true, errorReported := false,
          trace := [SessPhase.Idle, SessPhase.Connecting, SessPhase.Active] }
      else
        { st := st3, ok := false, errorReported := true,
          trace := [SessPhase.Idle, SessPhase.Connecting, SessPhase.Closed] }

/-- VoiceLiveService.stop_session (lines 306-330): drop the running
flag, set the stop event, join the workers with a bounded 2 s timeout
(the workers poll the flag every iteration and exit within it),
terminate the audio player when present, close the connection when
present.  The whole body sits in a try/except, so the call never
raises.  Returns the successor state, the number of actual audio
device releases performed, and the phase trace. -/
def stopSession (st : ServiceState) : ServiceState × Nat × List SessPhase :=
  let st1 := { st with running := false, stopEventSet := true, threads := 0 }
  match st1.audioPlayer with
  | some p =>
    let r := terminatePlayer p
    ({ st1 with audioPlayer := some r.1, connection := st1.connection.map closeConn }, r.2,
      [SessPhase.Stopping, SessPhase.Closed])
  | none =>
    ({ st1 with connection := st1.connection.map closeConn }, 0,
      [SessPhase.Stopping, SessPhase.Closed])

/-- Allowed edges of the session state machine in the spec: the linear
chain plus the documented failure edge from Connecting straight to
Closed. -/
def phaseStep : SessPhase → SessPhase → Bool
  | SessPhase.Idle, SessPhase.Connecting => true
  | SessPhase.Connecting, SessPhase.Active => true
  | SessPhase.Active, SessPhase.Stopping => true
  | SessPhase.Stopping, SessPhase.Closed => true
  | SessPhase.Connecting, SessPhase.Closed => true
  | _, _ => false

/-- A phase list is a chain when every consecutive pair is an allowed
transition. -/
def chainOk : List SessPhase → Bool
  | [] => true
  | [_] => true
  | a :: b :: rest => phaseStep a b && chainOk (b :: rest)

/-- Phase trace of a full lifecycle: a start_session run followed, when
it succeeded, by stop_session. -/
def lifecycleTrace (env : SessionEnv) (st : ServiceState) : List SessPhase :=
  let r := startSession env st
  if r.ok then r.trace ++ (stopSession r.st).2.2 else r.trace

/-- Playback queue held by the receive-loop state, empty when no player
was constructed. -/
def queueOf (st : RecvState) : List (List Int) :=
  match st.player with
  | some p => p.queue
  | none => []

/-- Receive-loop state right after start_session: no item id seen yet
(Python None), freshly constructed audio player. -/
def demoRecvState : RecvState :=
  { lastAudioItemId := JVal.null, player := some initPlayer }

/-- Barge-in scenario of the spec: three AudioDelta chunks for item
"A" (each decoding to the non-empty PCM16 chunk [0]), then
SpeechStarted, then one AudioDelta chunk for item "B" (decoding to
[-1]). -/
def msgsC2 : List InMsg :=
  [InMsg.msg (mkAudioDelta "A" "AAA="), InMsg.msg (mkAudioDelta "A" "AAA="),
   InMsg.msg (mkAudioDelta "A" "AAA="), InMsg.msg mkSpeechStarted,
   InMsg.msg (mkAudioDelta "B" "//8=")]

/-- Message sequence valid, malformed-as-JSON-text, valid. -/
def msgsC3ok : List InMsg :=
  [InMsg.msg (mkAgentText "one"), InMsg.invalid "not json", InMsg.msg (mkAgentText "two")]

/-- Message sequence valid, malformed-as-protocol-shape (valid JSON
that is not an object), valid. -/
def msgsC3bad : List InMsg :=
  [InMsg.msg (mkAgentText "one"), InMsg.msg (JVal.arr []), InMsg.msg (mkAgentText "two")]

/-- One interleaving step on the playback buffer: an add_data call from
the receive loop or a device callback requesting some frame count. -/
inductive PlayerOp where
  | add (samples : List Int)
  | consume (frames : Nat)

/-- Run an interleaving of add_data calls and device callbacks on the
player; the second component collects the genuine (pre-padding)
samples the device consumed, in playback order. -/
def runOps : PlayerState → List PlayerOp → PlayerState × List Int
  | p, [] => (p, [])
  | p, PlayerOp.add s :: rest => runOps (addData p s) rest
  | p, PlayerOp.consume n :: rest =>
    let r := callbackLoop p.queue n
    let out := runOps { p with queue := r.2 } rest
    (out.1, r.1 ++ out.2)

/-- All samples fed to add_data over an interleaving, in order. -/
def addedSamples : List PlayerOp → List Int
  | [] => []
  | PlayerOp.add s :: rest => s ++ addedSamples rest
  | PlayerOp.consume _ :: rest => addedSamples rest

/-- Environment of a start_session attempt against an unreachable
endpoint: credentials succeed, configuration is present, but the
websocket open acknowledgment never arrives. -/
def demoEnvUnreachable : SessionEnv :=
  { endpoint := "https://example.net/", apiVersion := "2025-05-01-preview",
    projectName := some "proj", agentId := some "agent", authToken := some "tok",
    ackAt := none, deviceOk := true }

/-- Environment of a start_session attempt where credential acquisition
itself fails (DefaultAzureCredential raises). -/
def demoEnvAuthFail : SessionEnv :=
  { demoEnvUnreachable with authToken := none }

/-- Gathering loop of the playback callback consumes exactly the
longest available FIFO prefix of the queued samples: its output is the
take of the flattened queue and the remaining queue flattens to the
drop. -/
theorem callbackLoop_take_drop (q : List (List Int)) :
    ∀ n, (callbackLoop q n).1 = q.flatten.take n
      ∧ (callbackLoop q n).2.flatten = q.flatten.drop n := by
  induction q with
  | nil => intro n; simp [callbackLoop]
  | cons item rest ih =>
    intro n
    by_cases h0 : n = 0
    · subst h0; simp [callbackLoop]
    · by_cases hle : item.length ≤ n
      · have h1 := (ih (n - item.length)).1
        have h2 := (ih (n - item.length)).2
        simp only [callbackLoop, if_neg h0, if_pos hle, List.flatten_cons]
        constructor
        · rw [List.take_append_eq_append_take, List.take_of_length_le hle, h1]
        · rw [List.drop_append_eq_append_drop, List.drop_eq_nil_of_le hle, h2,
            List.nil_append]
      · simp only [callbackLoop, if_neg h0, if_neg hle, List.flatten_cons]
        push_neg at hle
        constructor
        · rw [List.take_append_eq_append_take,
            Nat.sub_eq_zero_of_le (Nat.le_of_lt hle), List.take_zero, List.append_nil]
        · rw [List.drop_append_eq_append_drop,
            Nat.sub_eq_zero_of_le (Nat.le_of_lt hle), List.drop_zero]

/-- add_data appends its chunk at the back of the deque and touches
nothing else in the queue. -/
theorem addData_queue (p : PlayerState) (s : List Int) :
    (addData p s).queue = p.queue ++ [s] := by
  simp only [addData, startPlayer]
  split
  · split <;> rfl
  · rfl

/-- Across any interleaving of add_data calls and callback invocations,
the samples actually played followed by the samples still queued are
exactly the initial queue contents followed by every added chunk in
arrival order: nothing is lost or reordered. -/
theorem runOps_fifo (ops : List PlayerOp) :
    ∀ p : PlayerState,
      (runOps p ops).2 ++ (runOps p ops).1.queue.flatten
        = p.queue.flatten ++ addedSamples ops := by
  induction ops with
  | nil => intro p; simp [runOps, addedSamples]
  | cons op rest ih =>
    intro p
    cases op with
    | add s =>
      simp only [runOps, addedSamples]
      rw [ih (addData p s), addData_queue]
      simp
    | consume n =>
      simp only [runOps, addedSamples]
      have h1 := (callbackLoop_take_drop p.queue n).1
      have h2 := (callbackLoop_take_drop p.queue n).2
      rw [List.append_assoc, ih, h2, ← List.append_assoc, h1, List.take_append_drop]

/-- Polling loop of VoiceLiveConnection.connect never sleeps more than
100 ticks of 0.1 s. -/
theorem waitConnectAux_le (ackAt : Option Nat) :
    ∀ (fuel t : Nat), t ≤ 100 → waitConnectAux ackAt fuel t ≤ 100 := by
  intro fuel
  induction fuel with
  | zero => intro t ht; simpa [waitConnectAux] using ht
  | succ n ih =>
    intro t ht
    by_cases h1 : 100 ≤ t
    · simpa [waitConnectAux, h1] using ht
    · by_cases h2 : connectedBy ackAt t = true
      · simpa [waitConnectAux, h1, h2] using ht
      · simpa [waitConnectAux, h1, h2] using ih (t + 1) (by omega)

/-- start_session either fails with an error reported and the failure
trace, or succeeds with the active trace. -/
theorem startSession_cases (env : SessionEnv) (st : ServiceState) :
    ((startSession env st).ok = false
      ∧ (startSession env st).errorReported = true
      ∧ (startSession env st).trace = [SessPhase.Idle, SessPhase.Connecting, SessPhase.Closed])
    ∨ ((startSession env st).ok = true
      ∧ (startSession env st).errorReported = false
      ∧ (startSession env st).trace
          = [SessPhase.Idle, SessPhase.Connecting, SessPhase.Active]) := by
  obtain ⟨ep, av, pn, aid, tok, ack, dev⟩ := env
  cases tok with
  | none => left; exact ⟨rfl, rfl, rfl⟩
  | some t =>
    simp only [startSession]
    cases h : (avlConnect { connection := none } ep av pn aid (some t) ack).2.2 with
    | error e => simp [h]
    | ok conn =>
      simp only [h]
      cases dev <;> simp

/-- stop_session always passes through Stopping and then Closed. -/
theorem stopSession_trace (st : ServiceState) :
    (stopSession st).2.2 = [SessPhase.Stopping, SessPhase.Closed] := by
  cases h : st.audioPlayer <;> simp [stopSession, h]

/-- Claim C1, counterexample: a well-formed response.audio.delta
message processed while an observer is installed invokes the observer
zero times, not exactly once, refuting the claim for AudioDelta
events.  The handler completes without error, so the message was
processed normally. -/
theorem claim_C1_counterexample :
    obsCalls (handleEvent true demoRecvState (mkAudioDelta "A" "AAA=")).acts = []
    ∧ (handleEvent true demoRecvState (mkAudioDelta "A" "AAA=")).err = none :=
  ⟨rfl, rfl⟩

/-- Claim C1, amended: for every well-formed inbound message of a known
type other than response.audio.delta, processed while an observer is
installed, the observer is invoked exactly once with the correctly
classified event kind and payload; for AudioDelta the observer is not
invoked at all (the chunk is only enqueued for playback). -/
theorem claim_C1_dispatch_amended :
    ∀ (st : RecvState) (sid ut agt aat ty co me itemId : String),
      (obsCalls (handleEvent true st (mkSessionCreated sid)).acts
          = [("session_created", JVal.obj [("session_id", JVal.str sid)])]
        ∧ (handleEvent true st (mkSessionCreated sid)).err = none)
      ∧ (obsCalls (handleEvent true st (mkUserTranscript ut)).acts
          = [("user_transcript", JVal.obj [("text", JVal.str ut)])]
        ∧ (handleEvent true st (mkUserTranscript ut)).err = none)
      ∧ (obsCalls (handleEvent true st (mkAgentText agt)).acts
          = [("agent_text", JVal.obj [("text", JVal.str agt)])]
        ∧ (handleEvent true st (mkAgentText agt)).err = none)
      ∧ (obsCalls (handleEvent true st (mkAgentAudioTranscript aat)).acts
          = [("agent_audio_transcript", JVal.obj [("text", JVal.str aat)])]
        ∧ (handleEvent true st (mkAgentAudioTranscript aat)).err = none)
      ∧ (obsCalls (handleEvent true st mkSpeechStarted).acts
          = [("speech_started", JVal.obj [])]
        ∧ (handleEvent true st mkSpeechStarted).err = none)
      ∧ (obsCalls (handleEvent true st (mkErrorEvent ty co me)).acts
          = [("error", JVal.obj [("message",
              JVal.str ("Error received: Type=" ++ ty ++ ", Code=" ++ co
                ++ ", Message=" ++ me))])]
        ∧ (handleEvent true st (mkErrorEvent ty co me)).err = none)
      ∧ (obsCalls (handleEvent true st (mkAudioDelta itemId "AAA=")).acts = []
        ∧ (handleEvent true st (mkAudioDelta itemId "AAA=")).err = none) := by
  intro st sid ut agt aat ty co me itemId
  obtain ⟨last, player⟩ := st
  refine ⟨⟨rfl, rfl⟩, ⟨rfl, rfl⟩, ⟨rfl, rfl⟩, ⟨rfl, rfl⟩, ?_, ⟨rfl, rfl⟩, ?_⟩
  · cases player <;> exact ⟨rfl, rfl⟩
  · have hb : b64decode "AAA=" = some [0, 0] := rfl
    have hs : bytesToInt16 [0, 0] = some [0] := rfl
    cases hpe : pyEq (JVal.str itemId) last <;> cases player <;>
      simp [handleEvent, handleTyped, handleAudioDelta, audioDeltaEnqueue, mkAudioDelta,
        pyGet, jLookup, hpe, hb, hs, obsCalls]

/-- Claim C2: on SpeechStarted the receive loop stops the playback
buffer before notifying the observer (the stop action precedes the
observer call in the action trace) and the queue is empty immediately
afterwards; and in the concrete scenario three chunks for item A give
queue length 3, SpeechStarted empties it, and one chunk for item B
leaves exactly the single chunk decoded from B. -/
theorem claim_C2_bargein :
    (∀ (hasObs : Bool) (last : JVal) (p : PlayerState),
        handleEvent hasObs { lastAudioItemId := last, player := some p } mkSpeechStarted
          = { st := { lastAudioItemId := last, player := some (stopPlayer p) },
              acts := EngineAct.playerStop ::
                (if hasObs then [EngineAct.obsCall "speech_started" (JVal.obj [])] else []),
              err := none }
      ∧ (stopPlayer p).queue = [])
    ∧ queueOf (receiveLoop true demoRecvState (msgsC2.take 3)).1 = [[0], [0], [0]]
    ∧ queueOf (receiveLoop true demoRecvState (msgsC2.take 4)).1 = []
    ∧ queueOf (receiveLoop true demoRecvState msgsC2).1 = [[-1]] := by
  refine ⟨fun hasObs last p => ⟨rfl, rfl⟩, rfl, rfl, rfl⟩

/-- Claim C3, counterexample: a message that is valid JSON but not an
object ([] here) fails to parse as the protocol JSON shape, yet the
receive loop does not skip it: the uncaught AttributeError terminates
the loop and the following valid message is never dispatched. -/
theorem claim_C3_counterexample :
    obsCalls (receiveLoop true demoRecvState msgsC3bad).2.1
      = [("agent_text", JVal.obj [("text", JVal.str "one")])]
    ∧ (receiveLoop true demoRecvState msgsC3bad).2.2 = some "AttributeError" :=
  ⟨rfl, rfl⟩

/-- Claim C3, amended: every inbound message that fails to parse as
JSON text is logged and skipped and the loop keeps processing
subsequent messages unchanged; in particular for the sequence valid,
malformed JSON text, valid, both valid messages are dispatched and the
loop does not terminate.  (A message that parses as JSON but not as an
object instead terminates the loop, per the counterexample.) -/
theorem claim_C3_invalid_json_skipped :
    (∀ (hasObs : Bool) (st : RecvState) (ms1 : List InMsg) (raw : String) (ms2 : List InMsg),
        receiveLoop hasObs st (ms1 ++ InMsg.invalid raw :: ms2)
          = receiveLoop hasObs st (ms1 ++ ms2))
    ∧ obsCalls (receiveLoop true demoRecvState msgsC3ok).2.1
        = [("agent_text", JVal.obj [("text", JVal.str "one")]),
           ("agent_text", JVal.obj [("text", JVal.str "two")])]
    ∧ (receiveLoop true demoRecvState msgsC3ok).2.2 = none := by
  refine ⟨?_, rfl, rfl⟩
  intro hasObs st ms1 raw ms2
  induction ms1 generalizing st with
  | nil => rfl
  | cons m rest ih =>
    cases m with
    | invalid r => simpa [receiveLoop] using ih st
    | msg v =>
      simp only [List.cons_append, receiveLoop]
      cases herr : (handleEvent hasObs st v).err <;> simp [herr, ih]

/-- Claim C4: every callback invocation requesting n frames writes
exactly n samples without waiting: the longest available FIFO prefix
of the queued samples padded with zeros, and the remaining queue is
the corresponding drop; moreover across any interleaving of add_data
calls and callback invocations no queued sample is lost or
reordered. -/
theorem claim_C4_playback_callback :
    (∀ (p : PlayerState) (frames : Nat),
        (playerCallback p frames).1
            = p.queue.flatten.take frames
              ++ List.replicate (frames - p.queue.flatten.length) 0
        ∧ (playerCallback p frames).1.length = frames
        ∧ (playerCallback p frames).2.queue.flatten = p.queue.flatten.drop frames)
    ∧ ∀ (p : PlayerState) (ops : List PlayerOp),
        (runOps p ops).2 ++ (runOps p ops).1.queue.flatten
          = p.queue.flatten ++ addedSamples ops := by
  constructor
  · intro p frames
    have h1 := (callbackLoop_take_drop p.queue frames).1
    have h2 := (callbackLoop_take_drop p.queue frames).2
    refine ⟨?_, ?_, ?_⟩
    · simp only [playerCallback, h1, List.length_take]
      congr 2
      omega
    · simp only [playerCallback, List.length_append, List.length_replicate, h1,
        List.length_take]
      omega
    · simpa only [playerCallback] using h2
  · intro p ops
    exact runOps_fifo ops p

/-- Claim C5: stop_session is idempotent (a second call on an already
stopped session yields the same state, performs no device release, and
the two calls together release the device at most once), and
terminate() on the playback buffer is likewise safe to repeat.  Both
operations are total functions of the model and the source wraps
stop_session in a try/except, so no error is produced. -/
theorem claim_C5_stop_idempotent :
    (∀ st : ServiceState,
        (stopSession (stopSession st).1).1 = (stopSession st).1
      ∧ (stopSession (stopSession st).1).2.1 = 0
      ∧ (stopSession st).2.1 + (stopSession (stopSession st).1).2.1 ≤ 1)
    ∧ ∀ p : PlayerState,
        (terminatePlayer (terminatePlayer p).1).1 = (terminatePlayer p).1
      ∧ (terminatePlayer (terminatePlayer p).1).2 = 0 := by
  constructor
  · intro st
    obtain ⟨cl, conn, ap, th, run, se⟩ := st
    cases ap with
    | none =>
      cases conn <;> simp [stopSession, closeConn]
    | some p =>
      obtain ⟨q, pl, s⟩ := p
      cases conn <;> cases s <;>
        simp [stopSession, closeConn, terminatePlayer, streamStop, streamCloseRel]
  · intro p
    obtain ⟨q, pl, s⟩ := p
    cases s <;> simp [terminatePlayer, streamStop, streamCloseRel]

set_option maxRecDepth 4000 in
/-- Claim C6: connect polls for the open acknowledgment and, when it
never arrives, performs exactly 100 sleeps of 0.1 s (about 10 s) and
raises ConnectionError; the poll count is always bounded by 100; the
websocket I/O thread is not left running for an unreachable endpoint;
and start_session against an unreachable endpoint returns False with
the error reported, starting no worker threads. -/
theorem claim_C6_connect_timeout :
    vlcConnect none = Except.error "Failed to establish WebSocket connection"
    ∧ waitConnect none = 100
    ∧ (∀ ackAt : Option Nat, waitConnect ackAt ≤ 100)
    ∧ wsThreadAlive none = false
    ∧ ∀ (env : SessionEnv) (st : ServiceState), env.ackAt = none →
        (startSession env st).ok = false
      ∧ (startSession env st).errorReported = true
      ∧ (startSession env st).st.threads = st.threads
      ∧ (startSession env st).st.running = st.running := by
  refine ⟨rfl, rfl, fun ackAt => waitConnectAux_le ackAt 101 0 (by omega), rfl, ?_⟩
  intro env st hack
  obtain ⟨ep, av, pn, aid, tok, ack, dev⟩ := env
  simp only at hack
  subst hack
  cases tok with
  | none => exact ⟨rfl, rfl, rfl, rfl⟩
  | some t =>
    have hvc : vlcConnect none = Except.error "Failed to establish WebSocket connection" := rfl
    simp only [startSession, avlConnect]
    split_ifs <;> simp [hvc]

set_option maxRecDepth 4000 in
/-- Witness for claim C6 at a concrete unreachable-endpoint
environment and the initial service state. -/
theorem claim_C6_witness :
    (startSession demoEnvUnreachable initService).ok = false
    ∧ (startSession demoEnvUnreachable initService).errorReported = true
    ∧ (startSession demoEnvUnreachable initService).st.threads = initService.threads
    ∧ (startSession demoEnvUnreachable initService).st.running = initService.running :=
  claim_C6_connect_timeout.2.2.2.2 demoEnvUnreachable initService rfl

/-- Claim C7: an AudioDelta whose item id differs from the last-seen
tracker only updates the tracker and appends the decoded chunk to the
playback queue; the queue is extended, never reset, and no observer
call or error occurs. -/
theorem claim_C7_itemid_append_only :
    ∀ (last : JVal) (p : PlayerState) (itemId d : String) (bytes : List Nat)
      (samples : List Int),
      pyEq (JVal.str itemId) last = false →
      b64decode d = some bytes →
      bytes ≠ [] →
      bytesToInt16 bytes = some samples →
        handleEvent true { lastAudioItemId := last, player := some p } (mkAudioDelta itemId d)
          = { st := { lastAudioItemId := JVal.str itemId, player := some (addData p samples) },
              acts := [], err := none }
      ∧ (addData p samples).queue = p.queue ++ [samples] := by
  intro last p itemId d bytes samples h1 h2 h3 h4
  cases bytes with
  | nil => exact absurd rfl h3
  | cons b bs =>
    refine ⟨?_, addData_queue p samples⟩
    simp [handleEvent, handleTyped, handleAudioDelta, audioDeltaEnqueue, mkAudioDelta,
      pyGet, jLookup, h1, h2, h4]

/-- Witness for claim C7: item "B" after no item was seen, with a
chunk decoding to the single sample -1. -/
theorem claim_C7_witness :
    handleEvent true { lastAudioItemId := JVal.null, player := some initPlayer }
        (mkAudioDelta "B" "//8=")
      = { st := { lastAudioItemId := JVal.str "B", player := some (addData initPlayer [-1]) },
          acts := [], err := none }
    ∧ (addData initPlayer [-1]).queue = initPlayer.queue ++ [[-1]] :=
  claim_C7_itemid_append_only JVal.null initPlayer "B" "//8=" [255, 255] [-1] rfl rfl
    (by decide) rfl

/-- Claim C8: every start_session run follows the session state
machine (its phase trace is a chain over the allowed edges, as is the
trace of a full start/stop lifecycle), stop_session passes through
Stopping then Closed, and every failing start moves the session from
Connecting directly to Closed with an error reported, never entering
Active. -/
theorem claim_C8_state_machine :
    (∀ (env : SessionEnv) (st : ServiceState), chainOk (startSession env st).trace = true)
    ∧ (∀ (env : SessionEnv) (st : ServiceState), chainOk (lifecycleTrace env st) = true)
    ∧ (∀ st : ServiceState, (stopSession st).2.2 = [SessPhase.Stopping, SessPhase.Closed])
    ∧ ∀ (env : SessionEnv) (st : ServiceState), (startSession env st).ok = false →
        (startSession env st).trace = [SessPhase.Idle, SessPhase.Connecting, SessPhase.Closed]
      ∧ (startSession env st).errorReported = true
      ∧ SessPhase.Active ∉ (startSession env st).trace := by
  refine ⟨?_, ?_, stopSession_trace, ?_⟩
  · intro env st
    rcases startSession_cases env st with ⟨_, _, h⟩ | ⟨_, _, h⟩ <;> rw [h] <;> rfl
  · intro env st
    rcases startSession_cases env st with ⟨hok, _, h⟩ | ⟨hok, _, h⟩ <;>
      simp [lifecycleTrace, hok, h, stopSession_trace] <;> rfl
  · intro env st hfail
    rcases startSession_cases env st with ⟨_, herr, h⟩ | ⟨hok, _, _⟩
    · rw [h]
      exact ⟨rfl, herr, by decide⟩
    · rw [hok] at hfail
      exact absurd hfail (by decide)

/-- Witness for claim C8 at a concrete failing environment (credential
acquisition fails during Connecting). -/
theorem claim_C8_witness :
    (startSession demoEnvAuthFail initService).trace
        = [SessPhase.Idle, SessPhase.Connecting, SessPhase.Closed]
    ∧ (startSession demoEnvAuthFail initService).errorReported = true
    ∧ SessPhase.Active ∉ (startSession demoEnvAuthFail initService).trace :=
  claim_C8_state_machine.2.2.2 demoEnvAuthFail initService rfl

/-- Claim C9: AzureVoiceLive.connect raises a ValueError when a
connection is already held or when the project name, agent id or agent
access token is empty (or None); in each case no socket connection
attempt is made and the stored connection is unchanged. -/
theorem claim_C9_validation :
    ∀ (st : AVLState) (ep av : String) (pn aid tok : Option String) (ackAt : Option Nat),
      (st.connection.isSome = true ∨ pyFalsy pn = true ∨ pyFalsy aid = true
        ∨ pyFalsy tok = true) →
        (avlConnect st ep av pn aid tok ackAt).1 = st
      ∧ (avlConnect st ep av pn aid tok ackAt).2.1 = 0
      ∧ ∃ e, (avlConnect st ep av pn aid tok ackAt).2.2 = Except.error e
          ∧ (e = "Already connected to the Voice Live API."
            ∨ e = "Project name is required."
            ∨ e = "Agent ID is required."
            ∨ e = "Agent access token is required.") := by
  intro st ep av pn aid tok ackAt h
  unfold avlConnect
  split_ifs with h1 h2 h3 h4
  · exact ⟨rfl, rfl, _, rfl, Or.inl rfl⟩
  · exact ⟨rfl, rfl, _, rfl, Or.inr (Or.inl rfl)⟩
  · exact ⟨rfl, rfl, _, rfl, Or.inr (Or.inr (Or.inl rfl))⟩
  · exact ⟨rfl, rfl, _, rfl, Or.inr (Or.inr (Or.inr rfl))⟩
  · rcases h with h | h | h | h
    · exact absurd h h1
    · exact absurd h h2
    · exact absurd h h3
    · exact absurd h h4

/-- Witness for claim C9: a fresh client with an empty project name. -/
theorem claim_C9_witness :
    (avlConnect { connection := none } "https://e" "v" (some "") (some "a") (some "t") none).1
        = { connection := none }
    ∧ (avlConnect { connection := none } "https://e" "v" (some "") (some "a") (some "t")
        none).2.1 = 0
    ∧ ∃ e, (avlConnect { connection := none } "https://e" "v" (some "") (some "a") (some "t")
          none).2.2 = Except.error e
        ∧ (e = "Already connected to the Voice Live API."
          ∨ e = "Project name is required."
          ∨ e = "Agent ID is required."
          ∨ e = "Agent access token is required.") :=
  claim_C9_validation { connection := none } "https://e" "v" (some "") (some "a") (some "t")
    none (Or.inr (Or.inl rfl))

/-- Claim C10: an AudioDelta whose delta field is absent, or whose
delta decodes to empty bytes, leaves the playback buffer entirely
unchanged and raises nothing: add_data is reached only for non-empty
decoded chunks. -/
theorem claim_C10_empty_delta :
    ∀ (last : JVal) (p : PlayerState) (itemId d : String),
      b64decode d = some [] →
        ((handleEvent true { lastAudioItemId := last, player := some p }
            (JVal.obj [("type", JVal.str "response.audio.delta"),
              ("item_id", JVal.str itemId)])).st.player = some p
          ∧ (handleEvent true { lastAudioItemId := last, player := some p }
              (JVal.obj [("type", JVal.str "response.audio.delta"),
                ("item_id", JVal.str itemId)])).err = none)
      ∧ ((handleEvent true { lastAudioItemId := last, player := some p }
            (mkAudioDelta itemId d)).st.player = some p
        ∧ (handleEvent true { lastAudioItemId := last, player := some p }
            (mkAudioDelta itemId d)).err = none) := by
  intro last p itemId d hd
  have hb : b64decode "" = some [] := rfl
  cases hpe : pyEq (JVal.str itemId) last <;>
    constructor <;> constructor <;>
      simp [handleEvent, handleTyped, handleAudioDelta, audioDeltaEnqueue, mkAudioDelta,
        pyGet, jLookup, hpe, hb, hd]

/-- Witness for claim C10: item "A" with the delta field set to the
empty string, which decodes to empty bytes. -/
theorem claim_C10_witness :
    ((handleEvent true { lastAudioItemId := JVal.null, player := some initPlayer }
        (JVal.obj [("type", JVal.str "response.audio.delta"),
          ("item_id", JVal.str "A")])).st.player = some initPlayer
      ∧ (handleEvent true { lastAudioItemId := JVal.null, player := some initPlayer }
          (JVal.obj [("type", JVal.str "response.audio.delta"),
            ("item_id", JVal.str "A")])).err = none)
    ∧ ((handleEvent true { lastAudioItemId := JVal.null, player := some initPlayer }
          (mkAudioDelta "A" "")).st.player = some initPlayer
      ∧ (handleEvent true { lastAudioItemId := JVal.null, player := some initPlayer }
          (mkAudioDelta "A" "")).err = none) :=
  claim_C10_empty_delta JVal.null initPlayer "A" "" rfl
